import Mathlib

/-!
Verification of the environmental simulation and automation control loop of
the smart-wardrobe console. The definitions below are a shallow embedding of
the source: the simulator tick and the history append from the
sensor-interval callback in `src/App.tsx`, the automation controller from the
automation effect in `src/App.tsx`, the manual-override gate `toggleDevice`
from `src/App.tsx`, and the report-generator wrapper
`analyzeWardrobeEnvironment` from `src/services/geminiService.ts`. Real
numbers of the source are modelled as rationals.
-/

namespace WardrobeGuard

/-- `SensorData` from `src/types.ts`: one sensor reading. -/
structure SensorData where
  timestamp : Int
  temperature : Rat
  humidity : Rat
  moldIndex : Rat
deriving Repr, DecidableEq

/-- `DeviceState` from `src/types.ts`: the actuator booleans and the
automation flag. -/
structure DeviceState where
  fan : Bool
  dehumidifier : Bool
  uvLight : Bool
  autoMode : Bool
deriving Repr, DecidableEq

/-- `Thresholds` from `src/types.ts`. -/
structure Thresholds where
  maxHumidity : Rat
  triggerUVPeriod : Rat
deriving Repr, DecidableEq

/-- One simulator tick: the body of the `setSensors` interval callback in
`src/App.tsx` (lines 110-149). The random drifts `(Math.random() - 0.5) * 0.1`
and `(Math.random() - 0.5) * 0.5` are passed in as `dT` and `dH`; `Date.now()`
is passed in as `now`. The sequential mutations of `newTemp`, `newHum`,
`newMold` are modelled as successive let-bindings in source order. -/
def tick (prev : SensorData) (devices : DeviceState) (now : Int)
    (dT dH : Rat) : SensorData :=
  let newTemp0 := prev.temperature + dT
  let newHum0 := prev.humidity + dH
  let newHum1 := if devices.fan then newHum0 - 0.4 else newHum0
  let newTemp1 := if devices.fan then newTemp0 - 0.05 else newTemp0
  let newHum2 := if devices.dehumidifier then newHum1 - 1.2 else newHum1
  let newTemp2 := if devices.dehumidifier then newTemp1 + 0.1 else newTemp1
  let newMold1 :=
    if devices.uvLight then prev.moldIndex - 2.0
    else
      let mA := if newHum2 > 70 then prev.moldIndex + 0.5 else prev.moldIndex
      if newHum2 > 80 then mA + 1.0 else mA
  let newTemp3 := if devices.uvLight then newTemp2 + 0.05 else newTemp2
  let newHumC := max 30 (min 99 newHum2)
  let newMoldC := max 0 (min 100 newMold1)
  { timestamp := now, temperature := newTemp3,
    humidity := newHumC, moldIndex := newMoldC }

/-- `h.slice(-50)` from `src/App.tsx` line 148: the last 50 elements of the
list (the whole list when it is shorter). -/
def sliceLast50 (h : List SensorData) : List SensorData :=
  h.drop (h.length - 50)

/-- The history update `setHistory(h => [...h.slice(-50), newData])` from
`src/App.tsx` line 148. -/
def histStep (h : List SensorData) (newData : SensorData) : List SensorData :=
  sliceLast50 h ++ [newData]

/-- One evaluation of the automation controller: the automation effect in
`src/App.tsx` (lines 157-190). Returns the next `DeviceState`. The early
return on `!devices.autoMode` and the `changed ? next : prev` result are
modelled value-faithfully: when nothing changes the returned record equals
the input. The humidity branch and the mold branch both test the fields of
`prev` and write into the copy `next`, exactly as the source does. -/
def controllerStep (sensors : SensorData) (thresholds : Thresholds)
    (prev : DeviceState) : DeviceState :=
  if prev.autoMode = false then prev
  else
    let next1 :=
      if thresholds.maxHumidity < sensors.humidity then
        if prev.fan = false ∧ prev.dehumidifier = false then
          { prev with fan := true, dehumidifier := true }
        else prev
      else if sensors.humidity < thresholds.maxHumidity - 5 then
        if prev.fan = true ∨ prev.dehumidifier = true then
          { prev with fan := false, dehumidifier := false }
        else prev
      else prev
    if 40 < sensors.moldIndex ∧ prev.uvLight = false then
      { next1 with uvLight := true }
    else if sensors.moldIndex < 5 ∧ prev.uvLight = true then
      { next1 with uvLight := false }
    else next1

/-- The four keys of `DeviceState`, the argument of `toggleDevice`. -/
inductive Device where
  | fan
  | dehumidifier
  | uvLight
  | autoMode
deriving Repr, DecidableEq

/-- Read the field of `DeviceState` named by a `Device` key. -/
def DeviceState.get (s : DeviceState) : Device → Bool
  | Device.fan => s.fan
  | Device.dehumidifier => s.dehumidifier
  | Device.uvLight => s.uvLight
  | Device.autoMode => s.autoMode

/-- Write the field of `DeviceState` named by a `Device` key. -/
def DeviceState.set (s : DeviceState) : Device → Bool → DeviceState
  | Device.fan, b => { s with fan := b }
  | Device.dehumidifier, b => { s with dehumidifier := b }
  | Device.uvLight, b => { s with uvLight := b }
  | Device.autoMode, b => { s with autoMode := b }

/-- Result of a toggle attempt: the resulting state and whether the attempt
was rejected (the source signals rejection to the caller via `alert`). -/
structure ToggleResult where
  state : DeviceState
  rejected : Bool
deriving Repr, DecidableEq

/-- `toggleDevice` from `src/App.tsx` (lines 195-201): a toggle of any device
other than `autoMode` is rejected while `autoMode` is on (alert shown, state
unchanged); otherwise the named field is flipped. -/
def toggleDevice (devices : DeviceState) (device : Device) : ToggleResult :=
  if device ≠ Device.autoMode ∧ devices.autoMode = true then
    { state := devices, rejected := true }
  else
    { state := devices.set device (!(devices.get device)), rejected := false }

/-- The fallback string returned by `analyzeWardrobeEnvironment` when the
report-generator call throws (`src/services/geminiService.ts` line 48). -/
def fallbackSentinel : String := "连接 AI 服务失败，请检查网络设置。"

/-- The fallback string returned when the call succeeds but yields no text
(`src/services/geminiService.ts` line 45, the `||` right operand). -/
def emptyFallback : String := "暂时无法生成分析报告。"

/-- `analyzeWardrobeEnvironment` from `src/services/geminiService.ts`
(lines 6-50). The external report-generator call is passed in as its
outcome `genResult`: `Except.error` models the thrown exception caught by the
`try`/`catch`, `Except.ok none` models a response with no text, and
`Except.ok (some t)` a textual response (an empty string is falsy in the
source's `response.text || ...`, hence also mapped to `emptyFallback`).
The function is total: every outcome yields a string, no exception escapes. -/
def analyzeWardrobeEnvironment (current : SensorData)
    (history : List SensorData) (thresholds : Thresholds)
    (genResult : Except Unit (Option String)) : String :=
  match genResult with
  | Except.error _ => fallbackSentinel
  | Except.ok none => emptyFallback
  | Except.ok (some t) => if t = "" then emptyFallback else t

/-- The tick algorithm as §4.1 of the specification words it: six steps
applied in order, each additive to a running value, with final clamping.
Step 1 natural drift, step 2 ventilation effect, step 3 drying effect,
step 4 sterilization effect, step 5 passive mold growth only when
sterilization is inactive and judged on the running humidity, step 6 clamp
humidity to [30, 99] and mold index to [0, 100] with temperature unclamped.
This is the spec-side definition used to state refinement of `tick`. -/
def tickSpec (prev : SensorData) (devices : DeviceState) (now : Int)
    (dT dH : Rat) : SensorData :=
  let t1 := prev.temperature + dT
  let h1 := prev.humidity + dH
  let m1 := prev.moldIndex
  let h2 := if devices.fan then h1 - 0.4 else h1
  let t2 := if devices.fan then t1 - 0.05 else t1
  let h3 := if devices.dehumidifier then h2 - 1.2 else h2
  let t3 := if devices.dehumidifier then t2 + 0.1 else t2
  let m2 := if devices.uvLight then m1 - 2.0 else m1
  let t4 := if devices.uvLight then t3 + 0.05 else t3
  let m3 := if devices.uvLight = false ∧ 70 < h3 then m2 + 0.5 else m2
  let m4 := if devices.uvLight = false ∧ 80 < h3 then m3 + 1.0 else m3
  { timestamp := now, temperature := t4,
    humidity := max 30 (min 99 h3), moldIndex := max 0 (min 100 m4) }

/-- A deterministic reading used to exercise the history buffer; the buffer
logic never inspects the numeric fields. -/
def sampleReading (n : Nat) : SensorData := ⟨n, 24, 55, 10⟩

/-- A 20-entry seed history, the length produced by `generateInitialData`
in `src/App.tsx` (lines 31-43). -/
def seedHistory : List SensorData := (List.range 20).map sampleReading

/-- `n` ticks of the history update of `src/App.tsx` line 148, starting from
the 20-entry seed history, one fresh reading appended per tick. -/
def runHistory (n : Nat) : List SensorData :=
  (List.range n).foldl (fun h i => histStep h (sampleReading (20 + i)))
    seedHistory

/-- Length law of one history update: the buffer keeps the last 50 entries
and then appends one more, so the new length is `min (old length) 50 + 1`. -/
theorem histStep_length (h : List SensorData) (d : SensorData) :
    (histStep h d).length = min h.length 50 + 1 := by
  simp only [histStep, sliceLast50, List.length_append, List.length_drop,
    List.length_singleton]
  omega

/-- Claim C1: for every previous reading with humidity in [30, 99] and mold
index in [0, 100], every actuator combination and drift values in the stated
ranges, the reading produced by a simulator tick has humidity in [30, 99] and
mold index in [0, 100], while its temperature is the unclamped sum of the
previous temperature, the drift, and the device effects. -/
theorem tick_bounds (prev : SensorData) (d : DeviceState) (now : Int)
    (dT dH : Rat)
    (hH1 : 30 ≤ prev.humidity) (hH2 : prev.humidity ≤ 99)
    (hM1 : 0 ≤ prev.moldIndex) (hM2 : prev.moldIndex ≤ 100)
    (hdT1 : -0.05 ≤ dT) (hdT2 : dT ≤ 0.05)
    (hdH1 : -0.25 ≤ dH) (hdH2 : dH ≤ 0.25) :
    30 ≤ (tick prev d now dT dH).humidity ∧
    (tick prev d now dT dH).humidity ≤ 99 ∧
    0 ≤ (tick prev d now dT dH).moldIndex ∧
    (tick prev d now dT dH).moldIndex ≤ 100 ∧
    (tick prev d now dT dH).temperature =
      prev.temperature + dT + (if d.fan then -(0.05 : Rat) else 0) +
        (if d.dehumidifier then (0.1 : Rat) else 0) +
        (if d.uvLight then (0.05 : Rat) else 0) := by
  unfold tick
  refine ⟨le_max_left _ _, max_le (by norm_num) (min_le_left _ _),
    le_max_left _ _, max_le (by norm_num) (min_le_left _ _), ?_⟩
  dsimp only
  split_ifs <;> ring

/-- Witness for C1 at a concrete input. -/
theorem tick_bounds_witness :
    30 ≤ (tick ⟨0, 24, 55, 10⟩ ⟨true, false, true, true⟩ 1 (1/100)
      (-(1/10))).humidity ∧
    (tick ⟨0, 24, 55, 10⟩ ⟨true, false, true, true⟩ 1 (1/100)
      (-(1/10))).humidity ≤ 99 ∧
    0 ≤ (tick ⟨0, 24, 55, 10⟩ ⟨true, false, true, true⟩ 1 (1/100)
      (-(1/10))).moldIndex ∧
    (tick ⟨0, 24, 55, 10⟩ ⟨true, false, true, true⟩ 1 (1/100)
      (-(1/10))).moldIndex ≤ 100 ∧
    (tick ⟨0, 24, 55, 10⟩ ⟨true, false, true, true⟩ 1 (1/100)
      (-(1/10))).temperature =
      24 + 1/100 + (if true then -(0.05 : Rat) else 0) +
        (if false then (0.1 : Rat) else 0) +
        (if true then (0.05 : Rat) else 0) :=
  tick_bounds ⟨0, 24, 55, 10⟩ ⟨true, false, true, true⟩ 1 (1/100) (-(1/10))
    (by norm_num) (by norm_num) (by norm_num) (by norm_num)
    (by norm_num) (by norm_num) (by norm_num) (by norm_num)

set_option maxRecDepth 8000 in
/-- Claim C2 (code evidence): starting from the 20-entry seed history and
appending one reading per tick, after 60 ticks the history length is 51, not
50: `h.slice(-50)` keeps the last 50 entries and the new reading is appended
on top of them, so the steady-state length is 51, contradicting the source's
own comment `Keep last 50 points`. -/
theorem history_length_after_60_ticks : (runHistory 60).length = 51 := by
  decide

/-- Claim C8: the simulator tick refines the specification's step list: for
every input, `tick` (translated from the source) and `tickSpec` (written from
the spec's six ordered steps) produce the same reading; in particular the
drift, device effects, mold growth judged on the running humidity, and final
clamping are applied exactly in the stated order. -/
theorem tick_refines_spec (prev : SensorData) (d : DeviceState) (now : Int)
    (dT dH : Rat) :
    tick prev d now dT dH = tickSpec prev d now dT dH := by
  unfold tick tickSpec
  dsimp only
  split_ifs <;> simp_all

/-- Claim C3 counterexample: with automation on, the fan already on and the
dehumidifier off, and humidity 70 above the threshold 65, the evaluation
leaves the dehumidifier off — the source guard `!prev.fan &&
!prev.dehumidifier` blocks the activation — so the claim's unrestricted
"sets ventilation = true and drying = true" is false for this state. -/
theorem humidity_activation_counterexample :
    ¬ ((controllerStep ⟨0, 24, 70, 10⟩ ⟨65, 24⟩
          ⟨true, false, false, true⟩).fan = true ∧
       (controllerStep ⟨0, 24, 70, 10⟩ ⟨65, 24⟩
          ⟨true, false, false, true⟩).dehumidifier = true) := by
  decide

/-- Claim C3 (amended): with automation enabled and fan and dehumidifier in
agreement (both on or both off — every state this controller itself
produces), humidity above the threshold makes both true within one
evaluation; and the evaluation keeps fan and dehumidifier equal, so no state
where only one of them is active results from this controller alone. -/
theorem humidity_activation (s : SensorData) (th : Thresholds)
    (prev : DeviceState) (hauto : prev.autoMode = true)
    (heq : prev.fan = prev.dehumidifier) :
    (th.maxHumidity < s.humidity →
      (controllerStep s th prev).fan = true ∧
      (controllerStep s th prev).dehumidifier = true) ∧
    (controllerStep s th prev).fan =
      (controllerStep s th prev).dehumidifier := by
  unfold controllerStep
  dsimp only
  split_ifs <;> simp_all

/-- Witness for C3 at a concrete input: automation on, both actuators off,
humidity 70 above the threshold 65 turns both on. -/
theorem humidity_activation_witness :
    (controllerStep ⟨0, 24, 70, 10⟩ ⟨65, 24⟩
      ⟨false, false, false, true⟩).fan = true ∧
    (controllerStep ⟨0, 24, 70, 10⟩ ⟨65, 24⟩
      ⟨false, false, false, true⟩).dehumidifier = true :=
  (humidity_activation ⟨0, 24, 70, 10⟩ ⟨65, 24⟩ ⟨false, false, false, true⟩
    rfl rfl).1 (by norm_num)

/-- Claim C4: with automation enabled and humidity control active (fan and
dehumidifier both on), a reading with humidity in the dead band
[maxHumidity - 5, maxHumidity] leaves both on, and the evaluation turns both
off exactly when humidity is strictly below maxHumidity - 5. -/
theorem hysteresis_deadband (s : SensorData) (th : Thresholds)
    (prev : DeviceState) (hauto : prev.autoMode = true)
    (hfan : prev.fan = true) (hdeh : prev.dehumidifier = true) :
    (th.maxHumidity - 5 ≤ s.humidity → s.humidity ≤ th.maxHumidity →
      (controllerStep s th prev).fan = true ∧
      (controllerStep s th prev).dehumidifier = true) ∧
    (((controllerStep s th prev).fan = false ∧
      (controllerStep s th prev).dehumidifier = false) ↔
      s.humidity < th.maxHumidity - 5) := by
  unfold controllerStep
  dsimp only
  split_ifs <;> simp_all <;> linarith

/-- Witness for C4 at a concrete input: threshold 65, humidity 62 in the
dead band [60, 65] keeps both actuators on. -/
theorem hysteresis_deadband_witness :
    (controllerStep ⟨0, 24, 62, 10⟩ ⟨65, 24⟩
      ⟨true, true, false, true⟩).fan = true ∧
    (controllerStep ⟨0, 24, 62, 10⟩ ⟨65, 24⟩
      ⟨true, true, false, true⟩).dehumidifier = true :=
  (hysteresis_deadband ⟨0, 24, 62, 10⟩ ⟨65, 24⟩ ⟨true, true, false, true⟩
    rfl rfl rfl).1 (by norm_num) (by norm_num)

/-- Claim C5: with automation enabled, mold index above 40 with the UV light
off turns it on; mold index below 5 with the UV light on turns it off; and
for every mold index in the dead band [5, 40] the UV light is unchanged. -/
theorem mold_control (s : SensorData) (th : Thresholds) (prev : DeviceState)
    (hauto : prev.autoMode = true) :
    (40 < s.moldIndex → prev.uvLight = false →
      (controllerStep s th prev).uvLight = true) ∧
    (s.moldIndex < 5 → prev.uvLight = true →
      (controllerStep s th prev).uvLight = false) ∧
    (5 ≤ s.moldIndex → s.moldIndex ≤ 40 →
      (controllerStep s th prev).uvLight = prev.uvLight) := by
  unfold controllerStep
  dsimp only
  split_ifs <;> simp_all

/-- Witness for C5 at a concrete input: mold index 41 with the UV light off
turns it on. -/
theorem mold_control_witness :
    (controllerStep ⟨0, 24, 55, 41⟩ ⟨65, 24⟩
      ⟨false, false, false, true⟩).uvLight = true :=
  (mold_control ⟨0, 24, 55, 41⟩ ⟨65, 24⟩ ⟨false, false, false, true⟩
    rfl).1 (by norm_num) rfl

/-- Claim C6: a manual toggle of any device other than the automation flag
while automation is on is rejected — the state is returned unchanged and the
rejection is signalled — while toggling the automation flag itself always
succeeds and flips it. -/
theorem toggle_gate (s : DeviceState) (d : Device) :
    (d ≠ Device.autoMode → s.autoMode = true →
      (toggleDevice s d).state = s ∧ (toggleDevice s d).rejected = true) ∧
    ((toggleDevice s Device.autoMode).state.autoMode = !s.autoMode ∧
     (toggleDevice s Device.autoMode).rejected = false) := by
  rcases s with ⟨f, de, u, a⟩
  cases d <;> cases f <;> cases de <;> cases u <;> cases a <;> decide

/-- Witness for C6 at a concrete input: toggling the fan while automation is
on is rejected and changes nothing. -/
theorem toggle_gate_witness :
    (toggleDevice ⟨false, false, false, true⟩ Device.fan).state =
      (⟨false, false, false, true⟩ : DeviceState) ∧
    (toggleDevice ⟨false, false, false, true⟩ Device.fan).rejected = true :=
  (toggle_gate ⟨false, false, false, true⟩ Device.fan).1 (by decide) rfl

/-- Claim C7: when automation is disabled the controller does not run: the
actuator state after the evaluation equals the state before it, for every
reading and thresholds. -/
theorem automation_disabled_noop (s : SensorData) (th : Thresholds)
    (prev : DeviceState) (hoff : prev.autoMode = false) :
    controllerStep s th prev = prev := by
  unfold controllerStep
  simp [hoff]

/-- Witness for C7 at a concrete input: automation off, humidity and mold
both far above their thresholds, and the actuators stay untouched. -/
theorem automation_disabled_noop_witness :
    controllerStep ⟨0, 24, 90, 90⟩ ⟨65, 24⟩ ⟨false, false, false, false⟩ =
      (⟨false, false, false, false⟩ : DeviceState) :=
  automation_disabled_noop ⟨0, 24, 90, 90⟩ ⟨65, 24⟩
    ⟨false, false, false, false⟩ rfl

/-- Claim C9: for every current reading, history and thresholds, when the
external report-generator call errors, `analyzeWardrobeEnvironment` returns
the fixed fallback sentinel; the function is total on every outcome, so no
exception propagates to the simulation loop. -/
theorem analyze_error_fallback (current : SensorData)
    (history : List SensorData) (thresholds : Thresholds) :
    analyzeWardrobeEnvironment current history thresholds
      (Except.error ()) = fallbackSentinel := rfl

/-- Claim C10: the controller evaluation never changes the automation flag;
since `DeviceState` has only the fields fan, dehumidifier, uvLight and
autoMode, only the three actuator booleans can differ between the input and
the output state. -/
theorem controllerStep_preserves_autoMode (s : SensorData) (th : Thresholds)
    (prev : DeviceState) :
    (controllerStep s th prev).autoMode = prev.autoMode := by
  unfold controllerStep
  dsimp only
  split_ifs <;> rfl

end WardrobeGuard
